import Mathlib

/-!
Verification development for the `dynamic-media-video` block decorator
(`src/blocks/dynamic-media-video/dynamic-media-video.js`).

The JavaScript source is shallowly embedded: pure string manipulation is
translated to Lean functions on `String`/`List Char`; the DOM-dependent
decoration flow becomes a function from an explicit block model and an
environment (outcomes of the external script load, the player constructor,
and the JSON parser, which are platform services, not code of this
repository) to an `Except` value, where `Except.error` models a JavaScript
exception escaping the `decorate` entry point and `Except.ok` a normal
return together with the observable effects (attribute writes, hidden
children, derived URLs, chapter UI).
-/

namespace DMVideo

/-! ## URL parsing (model of the `new URL(...)` platform call)

`decorate` reads only `.protocol` and `.hostname` from the parsed URL
(line 171).  The model parses `scheme://host[:port]/...` forms: the scheme
is an initial letter followed by letters/digits/`+`/`-`/`.` up to `:`;
after `//`, the host runs to the first `/`, `?` or `#` with any `:port`
suffix stripped (so the port is NOT part of `.hostname`, as in the DOM URL
API); scheme and hostname are lowercased.  Inputs outside this fragment
(empty or space-containing host, no `//`) are mapped to `none`, modelling
the `TypeError` the URL constructor throws on unparsable input. -/

def isSchemeChar (c : Char) : Bool :=
  c.isAlphanum || c = '+' || c = '-' || c = '.'

def splitSchemeAux : List Char → List Char → Option (List Char × List Char)
  | _, [] => none
  | acc, c :: cs =>
    if c = ':' then some (acc.reverse, cs)
    else if isSchemeChar c then splitSchemeAux (c :: acc) cs
    else none

def splitScheme : List Char → Option (List Char × List Char)
  | [] => none
  | c :: cs => if c.isAlpha then splitSchemeAux [c] cs else none

def hostTerm (c : Char) : Bool :=
  c = '/' || c = '?' || c = '#'

def parseURL (s : String) : Option (String × String) :=
  match splitScheme s.toList with
  | none => none
  | some (scheme, rest) =>
    let protocol := String.mk (scheme.map Char.toLower) ++ ":"
    match rest with
    | '/' :: '/' :: rest2 =>
      let hostport := rest2.takeWhile (fun c => !(hostTerm c))
      let host := hostport.takeWhile (fun c => c ≠ ':')
      if host.isEmpty || host.contains ' ' then none
      else some (protocol, String.mk (host.map Char.toLower))
    | _ => none

/-! ## The asset-identifier pattern

Line 159: `const urnPattern = /(\/adobe\/assets\/urn:[^/]+)/i;` and
line 160: `videoUrl.match(urnPattern)`.  JavaScript `String.match` with a
non-global regex returns the leftmost match; the capture is the literal
`/adobe/assets/urn:` (matched case-insensitively, captured in original
case) followed by the maximal nonempty run of non-`/` characters.
`urnSplit` returns both the part of the string before the match and the
captured group `match[1]`; `urnMatch` is just the captured group. -/

def urnLit : String := "/adobe/assets/urn:"

def stripLitCI : List Char → List Char → Option (List Char × List Char)
  | [], s => some ([], s)
  | _ :: _, [] => none
  | l :: ls, c :: cs =>
    if c.toLower = l.toLower then
      match stripLitCI ls cs with
      | some (m, r) => some (c :: m, r)
      | none => none
    else none

def urnMatchAt (s : List Char) : Option (List Char) :=
  match stripLitCI urnLit.toList s with
  | none => none
  | some (m, rest) =>
    let run := rest.takeWhile (fun c => c ≠ '/')
    if run.isEmpty then none else some (m ++ run)

def urnSplitAux : List Char → Option (List Char × List Char)
  | [] => none
  | c :: cs =>
    match urnMatchAt (c :: cs) with
    | some m => some ([], m)
    | none =>
      match urnSplitAux cs with
      | some (p, m) => some (c :: p, m)
      | none => none

def urnSplit (s : String) : Option (String × String) :=
  (urnSplitAux s.toList).map (fun pm => (String.mk pm.1, String.mk pm.2))

def urnMatch (s : String) : Option String :=
  (urnSplit s).map (fun pm => pm.2)

/-! ## Derived URLs (lines 169-179) -/

def deriveUrls (protocol hostname assetIdPath : String) :
    String × String × String :=
  let baseUrl := protocol ++ "//" ++ hostname
  (baseUrl ++ assetIdPath ++ "/as/thumbnail.jpeg?preferwebp=true",
   baseUrl ++ assetIdPath ++ "/manifest.mpd",
   baseUrl ++ assetIdPath ++ "/manifest.m3u8")

/-- Model of `String.prototype.toLowerCase` restricted to ASCII (the
attribute values compared are `"true"`/`"false"`-like); defined over the
character list so it is kernel-computable. -/
def toLowerStr (s : String) : String :=
  String.mk (s.toList.map Char.toLower)

/-- Model of `String.prototype.trim` (ASCII whitespace), defined over the
character list so it is kernel-computable. -/
def trimStr (s : String) : String :=
  String.mk
    (((s.toList.dropWhile Char.isWhitespace).reverse.dropWhile
        Char.isWhitespace).reverse)

/-! ## Row text and boolean flag resolution (lines 191-219)

A `Row` models one child element of the block as `getTextFromRow` sees it:
the text content of its first `<p>` descendant (if any), of its first
`<div>` descendant (if any), and its own text content. -/

structure Row where
  pText : Option String := none
  divText : Option String := none
  ownText : String := ""

def getTextFromRow (rows : List Row) (index : Nat) : String :=
  match rows.get? index with
  | none => ""
  | some row =>
    let textEl := row.pText <|> row.divText
    let fromEl := (textEl.map trimStr).getD ""
    if fromEl ≠ "" then fromEl
    else if trimStr row.ownText ≠ "" then trimStr row.ownText
    else ""

def getBoolFromDataOrRow (dataset : String → Option String)
    (rows : List Row) (attrName : String) (rowIndex : Nat)
    (defaultValue : Bool) : Bool :=
  match dataset attrName with
  | some v => toLowerStr v == "true"
  | none =>
    let rowValue := getTextFromRow rows rowIndex
    if rowValue ≠ "" then toLowerStr rowValue == "true"
    else defaultValue

def resolveShowControls (dataset : String → Option String) : Bool :=
  match dataset "controls" with
  | some v => toLowerStr v == "true"
  | none => true

/-! ## Chapters (lines 221-265)

`data-chapters` is parsed with `JSON.parse` (a platform service, supplied
to the model as an oracle `jsonParse : String → Option JValue`).  `JValue`
is the shape of any `JSON.parse` result.  The subsequent code does
`if (chapters.length)` and `chapters.forEach(...)`:
  * `null.length` throws a `TypeError` (property access on `null`);
  * a nonempty string, or an object whose `length` property is truthy,
    passes the `length` test but has no callable `forEach`, so
    `chapters.forEach` throws a `TypeError`;
  * an array with a `null` element throws inside the `forEach` body at
    `chapter.label`;
  * numbers, booleans, the empty string, `[]`, and objects without a
    truthy `length` have a falsy `length`, so no chapter UI is built;
  * a nonempty array of non-`null` values renders one button per element.
These throws happen outside every `try` block of `decorate`. -/

inductive JValue where
  | jnull
  | jbool (b : Bool)
  | jnum (q : ℚ)
  | jstr (s : String)
  | jarr (elems : List JValue)
  | jobj (fields : List (String × JValue))

def jsTruthy : JValue → Bool
  | .jnull => false
  | .jbool b => b
  | .jnum q => q != 0
  | .jstr s => s != ""
  | .jarr _ => true
  | .jobj _ => true

def lookupField (k : String) (fs : List (String × JValue)) : Option JValue :=
  (fs.reverse.find? (fun f => f.1 == k)).map (fun f => f.2)

def objLengthTruthy (fs : List (String × JValue)) : Bool :=
  match lookupField "length" fs with
  | some v => jsTruthy v
  | none => false

def hasJNull : List JValue → Bool
  | [] => false
  | .jnull :: _ => true
  | _ :: xs => hasJNull xs

def chaptersStep : JValue → Except Unit (Option (List JValue))
  | .jnull => .error ()
  | .jbool _ => .ok none
  | .jnum _ => .ok none
  | .jstr s => if s = "" then .ok none else .error ()
  | .jarr [] => .ok none
  | .jarr (x :: xs) =>
    if hasJNull (x :: xs) then .error () else .ok (some (x :: xs))
  | .jobj fs => if objLengthTruthy fs then .error () else .ok none

/-! ## The decoration flow (lines 128-298) -/

structure Env where
  /-- `loadDMVideoViewer()` resolves (line 133 does not throw). -/
  loadOk : Bool
  /-- `window.dmviewers?.VideoViewer` is present after the load (line 141). -/
  viewerAvailable : Bool
  /-- the `try` block at lines 279-292 (constructor, `init`,
  `setupAnalytics`) throws. -/
  initThrows : Bool
  /-- oracle for the platform `JSON.parse`: `none` models a thrown
  `SyntaxError` (unparseable text), `some v` the parsed value. -/
  jsonParse : String → Option JValue

structure Block where
  /-- `href` values of `block.querySelectorAll('a[href]')`, document order. -/
  links : List String
  /-- `block.children`, as `getTextFromRow` sees them. -/
  rows : List Row
  /-- `block.dataset` (camel-cased `data-*` attributes). -/
  dataset : String → Option String

/-- Written `data-video-loaded` values, in order (lines 137, 144, 154,
165, 280, 292, 296). -/
structure DResult where
  marker : List String
  /-- the unconditional hide of all children (lines 151-153). -/
  hidAllChildren : Bool
  /-- the hide of non-`dm-video-ui` children (lines 234-238). -/
  hidNonUIChildren : Bool
  /-- control reached the `new window.dmviewers.VideoViewer` call (line 282). -/
  playerConstructionAttempted : Bool
  /-- `videoLinks[0].href` once read (line 158). -/
  usedUrl : Option String
  /-- `(posterImageUrl, dashUrl, hlsUrl)` (lines 177-179). -/
  derived : Option (String × String × String)
  /-- `(autoplay, loop, muted, showControls)` (lines 214-219). -/
  flags : Option (Bool × Bool × Bool × Bool)
  /-- rendered chapter buttons (lines 252-265), `none` when no chapters
  UI container is created. -/
  chaptersUI : Option (List JValue)

/-- A JavaScript exception escaping `decorate`. -/
inductive JsError where
  /-- `new URL(videoUrl)` threw (line 170, outside any `try`). -/
  | urlParse
  /-- `chapters.length` / `chapters.forEach` / `chapter.label` threw
  (lines 253-263, outside any `try`). -/
  | chaptersType

def errResult : DResult :=
  { marker := ["error"], hidAllChildren := false, hidNonUIChildren := false,
    playerConstructionAttempted := false, usedUrl := none, derived := none,
    flags := none, chaptersUI := none }

/-- The `chapters` value after lines 223-231: `[]` unless the attribute is
present, truthy (nonempty), and parses, in which case the parse result. -/
def chaptersValueOf (env : Env) (b : Block) : JValue :=
  match b.dataset "chapters" with
  | none => .jarr []
  | some s =>
    if s = "" then .jarr []
    else
      match env.jsonParse s with
      | some v => v
      | none => .jarr []

def decorate (env : Env) (b : Block) : Except JsError DResult :=
  if env.loadOk = false then .ok errResult
  else if env.viewerAvailable = false then .ok errResult
  else
    match b.links with
    | [] => .ok { errResult with hidAllChildren := true }
    | url :: _ =>
      match urnSplit url with
      | none => .ok { errResult with usedUrl := some url }
      | some (_, assetIdPath) =>
        match parseURL url with
        | none => .error .urlParse
        | some (protocol, hostname) =>
          let urls := deriveUrls protocol hostname assetIdPath
          let flags :=
            (getBoolFromDataOrRow b.dataset b.rows "autoplay" 2 false,
             getBoolFromDataOrRow b.dataset b.rows "loop" 3 false,
             getBoolFromDataOrRow b.dataset b.rows "muted" 4 false,
             resolveShowControls b.dataset)
          match chaptersStep (chaptersValueOf env b) with
          | .error _ => .error .chaptersType
          | .ok ui =>
            .ok { marker := ["loading",
                             if env.initThrows then "error" else "true"],
                  hidAllChildren := false, hidNonUIChildren := true,
                  playerConstructionAttempted := true,
                  usedUrl := some url, derived := some urls,
                  flags := some flags, chaptersUI := ui }

/-! ## Milestone analytics (lines 89-104)

One `timeupdate` tick reads `player.duration` and `player.currentTime`
(`none` models `undefined`/`NaN`, which `|| 0` coerces to `0`), returns
early when the coerced duration is falsy, and otherwise walks the
`milestones` array in order, firing each threshold not yet in the
`hitMilestones` set and adding it. -/

structure Tick where
  duration : Option ℚ
  currentTime : Option ℚ

def milestones : List ℚ := [1/4, 1/2, 3/4]

def fireMilestones (progress : ℚ) : List ℚ → List ℚ → List ℚ × List ℚ
  | [], hit => (hit, [])
  | m :: ms, hit =>
    if progress ≥ m ∧ m ∉ hit then
      let r := fireMilestones progress ms (m :: hit)
      (r.1, m :: r.2)
    else fireMilestones progress ms hit

def tickStep (hit : List ℚ) (t : Tick) : List ℚ × List ℚ :=
  let duration := t.duration.getD 0
  let currentTime := t.currentTime.getD 0
  if duration = 0 then (hit, [])
  else fireMilestones (currentTime / duration) milestones hit

def runTicks (hit : List ℚ) : List Tick → List ℚ × List ℚ
  | [] => (hit, [])
  | t :: ts =>
    let r := tickStep hit t
    let rest := runTicks r.1 ts
    (rest.1, r.2 ++ rest.2)

/-! ## The script-readiness singleton (lines 5, 37-47)

`dmViewerPromise` is assigned only inside `loadDMVideoViewer`, and only
when it is still unset; the check and the assignment run in one
synchronous stretch (no `await` between them), so a call is one atomic
step on the module state.  A promise is modelled by the identifier the
call would freshly create; the `Bool` records whether this call issued
the script-load request. -/

def loadDMVideoViewerStep : Option Nat → Nat → Option Nat × Nat × Bool
  | none, fresh => (some fresh, fresh, true)
  | some p, _ => (some p, p, false)

def runLoads : Option Nat → List Nat → Option Nat × List (Nat × Bool)
  | st, [] => (st, [])
  | st, f :: fs =>
    let r := loadDMVideoViewerStep st f
    let rest := runLoads r.1 fs
    (rest.1, (r.2.1, r.2.2) :: rest.2)

/-! ## Concrete instances used by witnesses and counterexamples -/

def c1WEnv : Env :=
  { loadOk := true, viewerAvailable := true, initThrows := false,
    jsonParse := fun _ => none }

def c1WBlock : Block :=
  { links := ["https://host/adobe/assets/urn:x:y/as/file.ext"],
    rows := [], dataset := fun _ => none }

def c1url : String := "https://host:8080/adobe/assets/urn:x:y/as/file.ext"

def c1CEnv : Env :=
  { loadOk := true, viewerAvailable := true, initThrows := false,
    jsonParse := fun _ => none }

def c1CBlock : Block :=
  { links := [c1url], rows := [], dataset := fun _ => none }

def c5ds : String → Option String :=
  fun a => if a = "autoplay" then some "false" else none

def c5rows : List Row :=
  [{ pText := none, divText := none, ownText := "" },
   { pText := none, divText := none, ownText := "" },
   { pText := some "true", divText := none, ownText := "" }]

def c6Env : Env :=
  { loadOk := true, viewerAvailable := true, initThrows := true,
    jsonParse := fun _ => none }

def c6Block : Block :=
  { links := ["https://h.example/adobe/assets/urn:a:b/as/v.mp4"],
    rows := [], dataset := fun _ => none }

def c7Env : Env :=
  { loadOk := true, viewerAvailable := true, initThrows := false,
    jsonParse := fun _ => none }

def c7Block : Block :=
  { links := [], rows := [{ pText := some "hello" }], dataset := fun _ => none }

def c8Env : Env :=
  { loadOk := true, viewerAvailable := true, initThrows := false,
    jsonParse := fun _ => none }

def c8Block : Block :=
  { links := ["https://h.example/content/video.mp4"], rows := [],
    dataset := fun _ => none }

def c9Env : Env :=
  { loadOk := true, viewerAvailable := true, initThrows := false,
    jsonParse := fun _ => none }

def c9Block : Block :=
  { links := ["https://h.example/adobe/assets/urn:a:b/as/v.mp4"],
    rows := [],
    dataset := fun a => if a = "chapters" then some "not json" else none }

def c2WEnv : Env :=
  { loadOk := true, viewerAvailable := true, initThrows := false,
    jsonParse := fun _ => none }

def c2WBlock : Block :=
  { links := [], rows := [], dataset := fun _ => none }

def c2CEnv : Env :=
  { loadOk := true, viewerAvailable := true, initThrows := false,
    jsonParse := fun _ => some (.jstr "abc") }

def c2CBlock : Block :=
  { links := ["https://h.example/adobe/assets/urn:a:b/as/v.mp4"],
    rows := [],
    dataset := fun a => if a = "chapters" then some "\"abc\"" else none }

/-! ## Helper lemmas -/

lemma fireMilestones_mono (p : ℚ) :
    ∀ (ms hit : List ℚ) (a : ℚ), a ∈ hit →
      a ∈ (fireMilestones p ms hit).1 := by
  intro ms
  induction ms with
  | nil => intro hit a ha; simpa [fireMilestones] using ha
  | cons m' ms ih =>
    intro hit a ha
    by_cases hc : p ≥ m' ∧ m' ∉ hit
    · simp only [fireMilestones, if_pos hc]
      exact ih (m' :: hit) a (List.mem_cons_of_mem m' ha)
    · simp only [fireMilestones, if_neg hc]
      exact ih hit a ha

lemma fireMilestones_count (p m : ℚ) :
    ∀ (ms hit : List ℚ),
      (fireMilestones p ms hit).2.count m +
        (if m ∈ hit then 1 else 0) =
      (if m ∈ (fireMilestones p ms hit).1 then 1 else 0) := by
  intro ms
  induction ms with
  | nil => intro hit; simp [fireMilestones]
  | cons m' ms ih =>
    intro hit
    by_cases hc : p ≥ m' ∧ m' ∉ hit
    · have ih' := ih (m' :: hit)
      simp only [fireMilestones, if_pos hc, List.count_cons]
      by_cases hm : m' = m
      · have h1 : m ∈ m' :: hit := by rw [← hm]; exact List.mem_cons_self m' hit
        have h2 : m ∈ (fireMilestones p ms (m' :: hit)).1 :=
          fireMilestones_mono p ms (m' :: hit) m h1
        have h3 : m ∉ hit := hm ▸ hc.2
        rw [if_pos h1, if_pos h2] at ih'
        rw [if_pos h2, if_neg h3, if_pos (show (m' == m) = true by simp [hm])]
        omega
      · have h1 : (m ∈ m' :: hit) ↔ m ∈ hit := by
          constructor
          · intro h
            rcases List.mem_cons.mp h with h | h
            · exact absurd h.symm hm
            · exact h
          · exact List.mem_cons_of_mem m'
        rw [if_congr h1 rfl rfl] at ih'
        rw [if_neg (show ¬ (m' == m) = true by simp [hm])]
        omega
    · simp only [fireMilestones, if_neg hc]
      exact ih hit

lemma fireMilestones_sublist (p : ℚ) :
    ∀ (ms hit : List ℚ), (fireMilestones p ms hit).2.Sublist ms := by
  intro ms
  induction ms with
  | nil => intro hit; simp [fireMilestones]
  | cons m' ms ih =>
    intro hit
    by_cases hc : p ≥ m' ∧ m' ∉ hit
    · simp only [fireMilestones, if_pos hc]
      exact (ih (m' :: hit)).cons₂ m'
    · simp only [fireMilestones, if_neg hc]
      exact (ih hit).cons m'

lemma tickStep_count (m : ℚ) (hit : List ℚ) (t : Tick) :
    (tickStep hit t).2.count m + (if m ∈ hit then 1 else 0) =
    (if m ∈ (tickStep hit t).1 then 1 else 0) := by
  unfold tickStep
  by_cases hd : t.duration.getD 0 = 0
  · simp [hd]
  · simp only [if_neg hd]
    exact fireMilestones_count _ m milestones hit

lemma runTicks_count (m : ℚ) :
    ∀ (ts : List Tick) (hit : List ℚ),
      (runTicks hit ts).2.count m + (if m ∈ hit then 1 else 0) ≤ 1 := by
  intro ts
  induction ts with
  | nil => intro hit; simp [runTicks]; split <;> omega
  | cons t ts ih =>
    intro hit
    have h1 := tickStep_count m hit t
    have h2 := ih (tickStep hit t).1
    simp only [runTicks, List.count_append]
    omega

lemma milestones_sorted : List.Sorted (· < ·) milestones := by
  simp only [milestones, List.sorted_cons, List.mem_cons,
    List.mem_singleton, List.sorted_singleton]
  norm_num

lemma runLoads_some (p : Nat) (fs : List Nat) :
    runLoads (some p) fs = (some p, fs.map (fun _ => (p, false))) := by
  induction fs with
  | nil => rfl
  | cons f fs ih => simp [runLoads, loadDMVideoViewerStep, ih]

lemma runLoads_cons (f : Nat) (fs : List Nat) :
    runLoads none (f :: fs) =
      (some f, (f, true) :: fs.map (fun _ => (f, false))) := by
  simp [runLoads, loadDMVideoViewerStep, runLoads_some]

lemma decorate_main (env : Env) (b : Block) (url : String)
    (rest : List String) (pre seg protocol hostname : String)
    (ui : Option (List JValue))
    (h1 : env.loadOk = true) (h2 : env.viewerAvailable = true)
    (h3 : b.links = url :: rest)
    (h4 : urnSplit url = some (pre, seg))
    (h5 : parseURL url = some (protocol, hostname))
    (h6 : chaptersStep (chaptersValueOf env b) = .ok ui) :
    decorate env b = .ok
      { marker := ["loading", if env.initThrows then "error" else "true"],
        hidAllChildren := false, hidNonUIChildren := true,
        playerConstructionAttempted := true, usedUrl := some url,
        derived := some (deriveUrls protocol hostname seg),
        flags := some
          (getBoolFromDataOrRow b.dataset b.rows "autoplay" 2 false,
           getBoolFromDataOrRow b.dataset b.rows "loop" 3 false,
           getBoolFromDataOrRow b.dataset b.rows "muted" 4 false,
           resolveShowControls b.dataset),
        chaptersUI := ui } := by
  simp [decorate, h1, h2, h3, h4, h5, h6]

/-! ## Claims -/

/-- C3: over any sequence of `timeupdate` ticks of a playback session,
each milestone threshold fires at most once; the thresholds fired on one
tick come out in strictly ascending order; and a tick whose duration is
unknown (`undefined`/`NaN`, coerced to `0` by `|| 0`) or zero fires no
milestone. -/
theorem c3_milestones (ts : List Tick) (hit : List ℚ) (t : Tick) (m : ℚ) :
    (runTicks [] ts).2.count m ≤ 1 ∧
    List.Sorted (· < ·) (tickStep hit t).2 ∧
    (t.duration.getD 0 = 0 → (tickStep hit t).2 = []) := by
  refine ⟨?_, ?_, ?_⟩
  · have h := runTicks_count m ts []
    simpa using h
  · unfold tickStep
    by_cases hd : t.duration.getD 0 = 0
    · simp [hd]
    · simp only [if_neg hd]
      exact List.Pairwise.sublist (fireMilestones_sublist _ milestones hit)
        milestones_sorted
  · intro hd
    simp [tickStep, hd]

/-- C3 witness: a session with one tick at 90% progress, a tick evaluated
on empty hit-state, and a tick with unknown duration. -/
theorem c3_milestones_witness :
    (runTicks [] [⟨some 10, some 9⟩]).2.count (1/2 : ℚ) ≤ 1 ∧
    List.Sorted (· < ·) (tickStep [] ⟨some 10, some 9⟩).2 ∧
    (tickStep [] ⟨none, some 5⟩).2 = [] := by
  have h1 := c3_milestones [⟨some 10, some 9⟩] [] ⟨some 10, some 9⟩ (1/2 : ℚ)
  have h2 := c3_milestones [⟨some 10, some 9⟩] [] ⟨none, some 5⟩ (1/2 : ℚ)
  exact ⟨h1.1, h1.2.1, h2.2.2 rfl⟩

/-- C4: the cached load promise is set by the first call to
`loadDMVideoViewer` and never reset; every call in the sequence returns
the first call's promise, exactly one call issues the script-load
request, and from a set state no later call changes the state or issues
a load. -/
theorem c4_singleton (f : Nat) (fs : List Nat) (p : Nat) (gs : List Nat) :
    (runLoads none (f :: fs)).1 = some f ∧
    (∀ r ∈ (runLoads none (f :: fs)).2, r.1 = f) ∧
    ((runLoads none (f :: fs)).2.countP (fun r => r.2) = 1) ∧
    (runLoads (some p) gs).1 = some p ∧
    ((runLoads (some p) gs).2.countP (fun r => r.2) = 0) := by
  rw [runLoads_cons, runLoads_some]
  refine ⟨rfl, ?_, ?_, rfl, ?_⟩
  · intro r hr
    simp only [List.mem_cons, List.mem_map] at hr
    rcases hr with h | ⟨x, _, h⟩
    · rw [h]
    · rw [← h]
  · simp [List.countP_cons, List.countP_map, Function.comp]
  · simp [List.countP_map, Function.comp]

/-- C1 (amended): for every source URL that the asset-identifier pattern
matches and that the URL constructor parses, the three derived URLs equal
the URL's protocol and hostname (NOT everything before the matched
segment: a port or any path prefix before the segment is dropped)
concatenated with the matched asset path and the fixed suffixes
`/as/thumbnail.jpeg?preferwebp=true`, `/manifest.mpd`, `/manifest.m3u8`. -/
theorem c1_derivation (env : Env) (b : Block) (url : String)
    (rest : List String) (pre seg protocol hostname : String)
    (ui : Option (List JValue))
    (h1 : env.loadOk = true) (h2 : env.viewerAvailable = true)
    (h3 : b.links = url :: rest)
    (h4 : urnSplit url = some (pre, seg))
    (h5 : parseURL url = some (protocol, hostname))
    (h6 : chaptersStep (chaptersValueOf env b) = .ok ui) :
    ∃ r, decorate env b = .ok r ∧
      r.derived = some
        (protocol ++ "//" ++ hostname ++ seg ++
           "/as/thumbnail.jpeg?preferwebp=true",
         protocol ++ "//" ++ hostname ++ seg ++ "/manifest.mpd",
         protocol ++ "//" ++ hostname ++ seg ++ "/manifest.m3u8") := by
  refine ⟨_, decorate_main env b url rest pre seg protocol hostname ui
    h1 h2 h3 h4 h5 h6, ?_⟩
  simp [deriveUrls, String.append_assoc]

/-- C1 witness: the spec's own example URL, where the derived URLs do
share origin `https://host` and asset path `/adobe/assets/urn:x:y`. -/
theorem c1_derivation_witness :
    ∃ r, decorate c1WEnv c1WBlock = .ok r ∧
      r.derived = some
        ("https:" ++ "//" ++ "host" ++ "/adobe/assets/urn:x:y" ++
           "/as/thumbnail.jpeg?preferwebp=true",
         "https:" ++ "//" ++ "host" ++ "/adobe/assets/urn:x:y" ++
           "/manifest.mpd",
         "https:" ++ "//" ++ "host" ++ "/adobe/assets/urn:x:y" ++
           "/manifest.m3u8") :=
  c1_derivation c1WEnv c1WBlock
    "https://host/adobe/assets/urn:x:y/as/file.ext" [] "https://host"
    "/adobe/assets/urn:x:y" "https:" "host" none rfl rfl rfl rfl rfl rfl

/-- C1 counterexample: for the source URL
`https://host:8080/adobe/assets/urn:x:y/as/file.ext`, everything before
the matched asset segment is `https://host:8080`, but the code derives
the URLs from `protocol + '//' + hostname`, which drops the port; the
derived poster URL therefore differs from what the claim states. -/
theorem c1_counterexample :
    urnSplit c1url = some ("https://host:8080", "/adobe/assets/urn:x:y") ∧
    decorate c1CEnv c1CBlock = .ok
      { marker := ["loading", "true"],
        hidAllChildren := false, hidNonUIChildren := true,
        playerConstructionAttempted := true, usedUrl := some c1url,
        derived := some
          ("https://host/adobe/assets/urn:x:y/as/thumbnail.jpeg?preferwebp=true",
           "https://host/adobe/assets/urn:x:y/manifest.mpd",
           "https://host/adobe/assets/urn:x:y/manifest.m3u8"),
        flags := some (false, false, false, true), chaptersUI := none } ∧
    ("https://host/adobe/assets/urn:x:y/as/thumbnail.jpeg?preferwebp=true"
        : String) ≠
      "https://host:8080" ++ "/adobe/assets/urn:x:y" ++
        "/as/thumbnail.jpeg?preferwebp=true" := by
  refine ⟨by decide, by rfl, by decide⟩

/-- C4 witness: three calls starting from the unset state, and two calls
starting from a set state. -/
theorem c4_singleton_witness :
    (runLoads none [5, 6, 7]).1 = some 5 ∧
    ((5, true) ∈ (runLoads none [5, 6, 7]).2 → ((5, true) : Nat × Bool).1 = 5) ∧
    ((runLoads none [5, 6, 7]).2.countP (fun r => r.2) = 1) ∧
    (runLoads (some 9) [1, 2]).1 = some 9 ∧
    ((runLoads (some 9) [1, 2]).2.countP (fun r => r.2) = 0) := by
  have h := c4_singleton 5 [6, 7] 9 [1, 2]
  exact ⟨h.1, fun hm => h.2.1 _ hm, h.2.2.1, h.2.2.2.1, h.2.2.2.2⟩

/-- C5: for every dataset and row list, a present data-attribute decides
each boolean flag (its lowercased value compared against `"true"`),
regardless of row text; when the attribute is absent and the row text is
empty, `autoplay`/`loop`/`muted` resolve to `false`; `showControls`
resolves from `data-controls` alone and defaults to `true` when it is
absent. -/
theorem c5_flags (ds : String → Option String) (rows : List Row) :
    (∀ (attrName : String) (rowIndex : Nat) (defaultValue : Bool)
        (v : String), ds attrName = some v →
      getBoolFromDataOrRow ds rows attrName rowIndex defaultValue =
        (toLowerStr v == "true")) ∧
    (∀ v : String, ds "controls" = some v →
      resolveShowControls ds = (toLowerStr v == "true")) ∧
    (ds "autoplay" = none → getTextFromRow rows 2 = "" →
      getBoolFromDataOrRow ds rows "autoplay" 2 false = false) ∧
    (ds "loop" = none → getTextFromRow rows 3 = "" →
      getBoolFromDataOrRow ds rows "loop" 3 false = false) ∧
    (ds "muted" = none → getTextFromRow rows 4 = "" →
      getBoolFromDataOrRow ds rows "muted" 4 false = false) ∧
    (ds "controls" = none → resolveShowControls ds = true) := by
  refine ⟨?_, ?_, ?_, ?_, ?_, ?_⟩
  · intro attrName rowIndex defaultValue v hv
    simp [getBoolFromDataOrRow, hv]
  · intro v hv
    simp [resolveShowControls, hv]
  all_goals
    first
    | (intro h1 h2; simp [getBoolFromDataOrRow, h1, h2])
    | (intro h1; simp [resolveShowControls, h1])

/-- C5 witness: `data-autoplay="false"` with row-2 text `"true"` resolves
to `autoplay = false`; with no sources at all, the four flags default to
`false`, `false`, `false`, `true`. -/
theorem c5_flags_witness :
    getBoolFromDataOrRow c5ds c5rows "autoplay" 2 false =
      (toLowerStr "false" == "true") ∧
    ((toLowerStr "false" == "true") = false) ∧
    getTextFromRow c5rows 2 = "true" ∧
    getBoolFromDataOrRow (fun _ => none) [] "autoplay" 2 false = false ∧
    getBoolFromDataOrRow (fun _ => none) [] "loop" 3 false = false ∧
    getBoolFromDataOrRow (fun _ => none) [] "muted" 4 false = false ∧
    resolveShowControls (fun _ => none) = true := by
  have h1 := (c5_flags c5ds c5rows).1 "autoplay" 2 false "false" rfl
  have h2 := (c5_flags (fun _ => none) ([] : List Row)).2.2.1 rfl rfl
  have h3 := (c5_flags (fun _ => none) ([] : List Row)).2.2.2.1 rfl rfl
  have h4 := (c5_flags (fun _ => none) ([] : List Row)).2.2.2.2.1 rfl rfl
  have h5 := (c5_flags (fun _ => none) ([] : List Row)).2.2.2.2.2 rfl
  exact ⟨h1, by decide, by decide, h2, h3, h4, h5⟩

/-- C6: for every block that reaches player construction, the marker is
written as `loading` and then `true` when construction and
initialization succeed, or `loading` and then `error` when they throw;
either way the decoration returns normally (the exception is caught). -/
theorem c6_construction_marker (env : Env) (b : Block) (url : String)
    (rest : List String) (pre seg protocol hostname : String)
    (ui : Option (List JValue))
    (h1 : env.loadOk = true) (h2 : env.viewerAvailable = true)
    (h3 : b.links = url :: rest)
    (h4 : urnSplit url = some (pre, seg))
    (h5 : parseURL url = some (protocol, hostname))
    (h6 : chaptersStep (chaptersValueOf env b) = .ok ui) :
    ∃ r, decorate env b = .ok r ∧
      r.playerConstructionAttempted = true ∧
      r.marker = ["loading", if env.initThrows then "error" else "true"] := by
  exact ⟨_, decorate_main env b url rest pre seg protocol hostname ui
    h1 h2 h3 h4 h5 h6, rfl, rfl⟩

/-- C6 witness: a throwing construction yields the caught outcome with
marker trace `loading`, `error`. -/
theorem c6_construction_marker_witness :
    ∃ r, decorate c6Env c6Block = .ok r ∧
      r.playerConstructionAttempted = true ∧
      r.marker = ["loading", if c6Env.initThrows then "error" else "true"] :=
  c6_construction_marker c6Env c6Block
    "https://h.example/adobe/assets/urn:a:b/as/v.mp4" [] "https://h.example"
    "/adobe/assets/urn:a:b" "https:" "h.example" none rfl rfl rfl rfl rfl rfl

/-- C7: for every block with no link elements (once the script gate has
succeeded), decoration hides all children, sets the marker to `error`,
and returns without reading a source URL, deriving URLs, or attempting
player construction. -/
theorem c7_no_links (env : Env) (b : Block)
    (h1 : env.loadOk = true) (h2 : env.viewerAvailable = true)
    (h3 : b.links = []) :
    ∃ r, decorate env b = .ok r ∧ r.marker = ["error"] ∧
      r.hidAllChildren = true ∧ r.playerConstructionAttempted = false ∧
      r.usedUrl = none ∧ r.derived = none := by
  refine ⟨{ errResult with hidAllChildren := true }, ?_, rfl, rfl, rfl, rfl, rfl⟩
  simp [decorate, h1, h2, h3]

/-- C7 witness: a linkless block. -/
theorem c7_no_links_witness :
    ∃ r, decorate c7Env c7Block = .ok r ∧ r.marker = ["error"] ∧
      r.hidAllChildren = true ∧ r.playerConstructionAttempted = false ∧
      r.usedUrl = none ∧ r.derived = none :=
  c7_no_links c7Env c7Block rfl rfl rfl

/-- C8: for every block whose first link does not contain the
asset-identifier pattern (once the script gate has succeeded),
decoration sets the marker to `error` and never attempts player
construction. -/
theorem c8_invalid_url (env : Env) (b : Block) (url : String)
    (rest : List String)
    (h1 : env.loadOk = true) (h2 : env.viewerAvailable = true)
    (h3 : b.links = url :: rest) (h4 : urnMatch url = none) :
    ∃ r, decorate env b = .ok r ∧ r.marker = ["error"] ∧
      r.playerConstructionAttempted = false ∧ r.derived = none := by
  have hsplit : urnSplit url = none := by
    have := h4
    unfold urnMatch at this
    exact Option.map_eq_none'.mp this
  refine ⟨{ errResult with usedUrl := some url }, ?_, rfl, rfl, rfl⟩
  simp [decorate, h1, h2, h3, hsplit]

/-- C8 witness: a link without the `/adobe/assets/urn:` segment. -/
theorem c8_invalid_url_witness :
    ∃ r, decorate c8Env c8Block = .ok r ∧ r.marker = ["error"] ∧
      r.playerConstructionAttempted = false ∧ r.derived = none :=
  c8_invalid_url c8Env c8Block "https://h.example/content/video.mp4" []
    rfl rfl rfl (by decide)

/-- C9: for every block with a valid video link whose `data-chapters`
text does not parse as JSON, the chapter value degrades to the empty
list, no chapters UI is rendered, and decoration succeeds with marker
trace `loading`, `true` when construction succeeds. -/
theorem c9_malformed_chapters (env : Env) (b : Block) (url : String)
    (rest : List String) (pre seg protocol hostname s : String)
    (h1 : env.loadOk = true) (h2 : env.viewerAvailable = true)
    (h3 : b.links = url :: rest)
    (h4 : urnSplit url = some (pre, seg))
    (h5 : parseURL url = some (protocol, hostname))
    (h6 : b.dataset "chapters" = some s) (h7 : s ≠ "")
    (h8 : env.jsonParse s = none) (h9 : env.initThrows = false) :
    chaptersValueOf env b = .jarr [] ∧
    ∃ r, decorate env b = .ok r ∧ r.chaptersUI = none ∧
      r.marker = ["loading", "true"] := by
  have hval : chaptersValueOf env b = .jarr [] := by
    simp [chaptersValueOf, h6, h7, h8]
  have hstep : chaptersStep (chaptersValueOf env b) = .ok none := by
    rw [hval]; rfl
  refine ⟨hval, _, decorate_main env b url rest pre seg protocol hostname
    none h1 h2 h3 h4 h5 hstep, rfl, ?_⟩
  simp [h9]

/-- C9 witness: `data-chapters="not json"` on a block with a valid link. -/
theorem c9_malformed_chapters_witness :
    chaptersValueOf c9Env c9Block = .jarr [] ∧
    ∃ r, decorate c9Env c9Block = .ok r ∧ r.chaptersUI = none ∧
      r.marker = ["loading", "true"] :=
  c9_malformed_chapters c9Env c9Block
    "https://h.example/adobe/assets/urn:a:b/as/v.mp4" [] "https://h.example"
    "/adobe/assets/urn:a:b" "https:" "h.example" "not json"
    rfl rfl rfl rfl rfl rfl (by decide) rfl rfl

/-- C10: for every block, decoration depends only on the first link:
replacing the link list by its first element alone yields the same
outcome, and whenever decoration returns normally having read a source
URL, that URL is the first link's. -/
theorem c10_first_link (env : Env) (url : String) (rest : List String)
    (rows : List Row) (ds : String → Option String) :
    decorate env ⟨url :: rest, rows, ds⟩ = decorate env ⟨[url], rows, ds⟩ ∧
    (env.loadOk = true → env.viewerAvailable = true →
      ∀ r, decorate env ⟨url :: rest, rows, ds⟩ = .ok r →
        r.usedUrl = some url) := by
  constructor
  · rfl
  · intro h1 h2 r hr
    rcases hsplit : urnSplit url with _ | ⟨pre, seg⟩
    · rw [show decorate env ⟨url :: rest, rows, ds⟩ =
          .ok { errResult with usedUrl := some url } by
        simp [decorate, h1, h2, hsplit]] at hr
      cases hr
      rfl
    · rcases hparse : parseURL url with _ | ⟨protocol, hostname⟩
      · rw [show decorate env ⟨url :: rest, rows, ds⟩ = .error .urlParse by
          simp [decorate, h1, h2, hsplit, hparse]] at hr
        cases hr
      · rcases hstep : chaptersStep
            (chaptersValueOf env ⟨url :: rest, rows, ds⟩) with e | ui
        · rw [show decorate env ⟨url :: rest, rows, ds⟩ =
              .error .chaptersType by
            simp [decorate, h1, h2, hsplit, hparse, hstep]] at hr
          cases hr
        · rw [decorate_main env ⟨url :: rest, rows, ds⟩ url rest pre seg
            protocol hostname ui h1 h2 rfl hsplit hparse hstep] at hr
          cases hr
          rfl

/-- C10 witness: a block with two links uses only the first. -/
theorem c10_first_link_witness :
    decorate c9Env ⟨["https://h.example/adobe/assets/urn:a:b/as/v.mp4",
                     "https://other.example/x"], [], fun _ => none⟩ =
      decorate c9Env ⟨["https://h.example/adobe/assets/urn:a:b/as/v.mp4"],
                      [], fun _ => none⟩ ∧
    (∀ r, decorate c9Env ⟨["https://h.example/adobe/assets/urn:a:b/as/v.mp4",
                           "https://other.example/x"], [], fun _ => none⟩ =
        .ok r →
      r.usedUrl = some "https://h.example/adobe/assets/urn:a:b/as/v.mp4") := by
  have h := c10_first_link c9Env
    "https://h.example/adobe/assets/urn:a:b/as/v.mp4"
    ["https://other.example/x"] [] (fun _ => none)
  exact ⟨h.1, h.2 rfl rfl⟩

/-- C2 (amended): decoration catches every failure and records it as the
`error` marker (or completes with `true`), and throws nothing back to
its caller, PROVIDED the first link's URL, when the asset pattern
matches it, is accepted by the URL constructor, and the parsed
`data-chapters` value is not of a shape whose `length`/`forEach`/
`label` access throws (`null`, a nonempty string, an object with a
truthy `length`, or an array containing `null`); in those excluded
cases a `TypeError` escapes `decorate` as a rejected promise. -/
theorem c2_boundary (env : Env) (b : Block)
    (hurl : ∀ url rest, b.links = url :: rest → urnSplit url ≠ none →
      parseURL url ≠ none)
    (hch : chaptersStep (chaptersValueOf env b) ≠ .error ()) :
    ∃ r, decorate env b = .ok r ∧
      (r.marker = ["error"] ∨ r.marker = ["loading", "error"] ∨
        r.marker = ["loading", "true"]) := by
  by_cases h1 : env.loadOk = false
  · exact ⟨errResult, by simp [decorate, h1], Or.inl rfl⟩
  have h1' : env.loadOk = true := by
    revert h1; cases env.loadOk <;> simp
  by_cases h2 : env.viewerAvailable = false
  · exact ⟨errResult, by simp [decorate, h1', h2], Or.inl rfl⟩
  have h2' : env.viewerAvailable = true := by
    revert h2; cases env.viewerAvailable <;> simp
  rcases h3 : b.links with _ | ⟨url, rest⟩
  · exact ⟨{ errResult with hidAllChildren := true },
      by simp [decorate, h1', h2', h3], Or.inl rfl⟩
  rcases h4 : urnSplit url with _ | ⟨pre, seg⟩
  · exact ⟨{ errResult with usedUrl := some url },
      by simp [decorate, h1', h2', h3, h4], Or.inl rfl⟩
  rcases h5 : parseURL url with _ | ⟨protocol, hostname⟩
  · exact absurd h5 (hurl url rest h3 (by simp [h4]))
  rcases h6 : chaptersStep (chaptersValueOf env b) with e | ui
  · cases e
    exact absurd h6 hch
  refine ⟨_, decorate_main env b url rest pre seg protocol hostname ui
    h1' h2' h3 h4 h5 h6, ?_⟩
  cases hth : env.initThrows <;> simp [hth]

/-- C2 witness: a linkless block under a healthy gate is caught and
marked `error`. -/
theorem c2_boundary_witness :
    ∃ r, decorate c2WEnv c2WBlock = .ok r ∧
      (r.marker = ["error"] ∨ r.marker = ["loading", "error"] ∨
        r.marker = ["loading", "true"]) := by
  have hch : chaptersStep (chaptersValueOf c2WEnv c2WBlock) ≠ .error () := by
    rw [show chaptersStep (chaptersValueOf c2WEnv c2WBlock) = .ok none
      from rfl]
    exact fun h => Except.noConfusion h
  exact c2_boundary c2WEnv c2WBlock (fun url rest h _ => by cases h) hch

/-- C2 counterexample: with a valid link and `data-chapters='"abc"'`
(valid JSON parsing to the string `abc`, so `JSON.parse` does not
throw), `chapters.length` is `3` (truthy) and `chapters.forEach` is not
a function, so a `TypeError` is thrown at lines 253-263, outside every
`try` of `decorate` — the exception escapes to the caller instead of
being converted into the `error` marker. -/
theorem c2_counterexample :
    decorate c2CEnv c2CBlock = .error .chaptersType := by rfl

end DMVideo
